import Mathlib

/-!
Shallow embedding of the quiz-generation core of this repository
(`app/api/features/quizzify.py`, class `QuizBuilder`), together with
proofs about the behaviour of `get_parser_for_question_type`,
`__init__`, `validate_question` and `create_questions`.

Modelling conventions:
  * Parsed model responses (the output of the `JsonOutputParser` at the end
    of the chain) are JSON-like values; a top-level response is a Python
    dict, modelled as an association list with (as in any Python dict)
    at most one entry per key.
  * A single generation attempt (`chain.invoke`, i.e. retrieval + prompt +
    model call + JSON parsing) is an external collaborator; it is a
    parameter `env : Nat -> Except String Response` giving, for each attempt
    index, either the parsed dict or a raised exception (model transport
    failure, or `OutputParserException` from malformed model JSON —
    `JsonOutputParser` raises on text that is not valid JSON).
  * Python exceptions are `Except.error`; a function that can raise returns
    `Except`.
  * Python `int` is `Int`; machine overflow does not occur.
  * Pydantic v1 construction `schema(**result)` is modelled structurally:
    all declared fields are required, extra keys are ignored (pydantic v1
    default `Extra.ignore`), and a field checks its declared structural
    type (`str`, `bool`, or a list of the declared item shape); pydantic's
    lenient primitive coercions are simplified to exact type match.
  * Side effects on external resources are tracked by counters in the
    result record: `builds` counts `vectorstore_class.from_documents`
    calls, `deletes` counts `vectorstore.delete_collection` calls,
    `invokes` counts `chain.invoke` calls.
-/

set_option maxRecDepth 4096

namespace Quizzify

/-- JSON-like values: the shape of data produced by the JSON output parsing
step of the chain in `quizzify.py`. -/
inductive JVal where
  | str (s : String)
  | bool (b : Bool)
  | num (n : Int)
  | arr (xs : List JVal)
  | obj (fields : List (String × JVal))

/-- A parsed top-level model response: a Python dict, keys unique. -/
abbrev Response := List (String × JVal)

/-- The six pydantic question schemas declared at the bottom of
`quizzify.py` (`FillInTheBlankQuestion`, `OpenEndedQuestion`,
`TrueFalseQuestion`, `MultipleChoiceQuestion`, `RelateConceptsQuestion`,
`MathExerciseQuestion`). -/
inductive QuestionSchema where
  | fillInTheBlank
  | openEnded
  | trueFalse
  | multipleChoice
  | relateConcepts
  | mathExercises
deriving DecidableEq, Repr

/-- The `schema_mapping` dict literal of
`QuizBuilder.get_parser_for_question_type` (quizzify.py lines 62-71),
including its `'default'` entry, accessed with `dict.get` (so an absent
key yields `None`). -/
def schemaMapping (questionType : String) : Option QuestionSchema :=
  if questionType = "fill_in_the_blank" then some QuestionSchema.fillInTheBlank
  else if questionType = "open_ended" then some QuestionSchema.openEnded
  else if questionType = "true_false" then some QuestionSchema.trueFalse
  else if questionType = "multiple_choice" then some QuestionSchema.multipleChoice
  else if questionType = "relate_concepts" then some QuestionSchema.relateConcepts
  else if questionType = "math_exercises" then some QuestionSchema.mathExercises
  else if questionType = "default" then some QuestionSchema.multipleChoice
  else none

/-- The six question types the spec's schema registry names as the fixed
supported set. -/
def supportedQuestionTypes : List String :=
  ["fill_in_the_blank", "open_ended", "true_false", "multiple_choice",
   "relate_concepts", "math_exercises"]

/-- `QuizBuilder.get_parser_for_question_type` (quizzify.py lines 61-75):
looks the type up in `schema_mapping`, raises
`ValueError(f"Unsupported question type: ...")` when absent, otherwise
returns `JsonOutputParser(pydantic_object=schema)`, modelled here by the
schema it wraps. -/
def getParserForQuestionType (questionType : String) : Except String QuestionSchema :=
  match schemaMapping questionType with
  | none => Except.error ("Unsupported question type: " ++ questionType)
  | some s => Except.ok s

/-- The state a successfully constructed `QuizBuilder` carries (the fields
of `__init__` that the embedded operations read). -/
structure QuizBuilder where
  questionType : String
  topic : String
  lang : String
  parserSchema : QuestionSchema
  promptText : String
  verbose : Bool

/-- Contents of `prompt/quizzify-prompt.txt` as loaded by
`read_text_file`; the text itself is external data and never inspected by
the embedded control flow, so it is an abstract constant. -/
def defaultPromptText : String := "quizzify default prompt template"

/-- `QuizBuilder.__init__` (quizzify.py lines 35-59). The `default_config`
dict literal is evaluated eagerly, so `get_parser_for_question_type()` runs
(and can raise) before any `x or default_config[...]` override is applied;
the `vectorstore_class is None` and `topic is None` checks come last.
`model` and `embedding_model` defaults construct external clients and are
not tracked. `topic` is `Option` so that passing Python `None` is
expressible; `vectorstoreProvided = false` models passing
`vectorstore_class=None`. -/
def quizBuilderInit (topic : Option String) (questionType : String) (lang : String)
    (vectorstoreProvided : Bool) (promptOverride : Option String)
    (parserOverride : Option QuestionSchema) (verbose : Bool) :
    Except String QuizBuilder :=
  match getParserForQuestionType questionType with
  | Except.error e => Except.error e
  | Except.ok defaultSchema =>
    let schema := parserOverride.getD defaultSchema
    let promptText := promptOverride.getD defaultPromptText
    if vectorstoreProvided = false then Except.error "Vectorstore must be provided"
    else
      match topic with
      | none => Except.error "Topic must be provided"
      | some t =>
        Except.ok ⟨questionType, t, lang, schema, promptText, verbose⟩

/-- Lookup of a key in a parsed dict (Python `response[key]` /
`key in response` on a dict). -/
def dictGet (key : String) : Response → Option JVal
  | [] => none
  | (k, v) :: rest => if k = key then some v else dictGet key rest

/-- Lines 133-134 of `create_questions`:
`if "model_config" in response: del response["model_config"]`.
On a dict (unique keys) deleting the key is removing its single entry;
written as a filter, which agrees with `del` on any unique-key dict. -/
def stripModelConfig : Response → Response
  | [] => []
  | (k, v) :: rest =>
      if k = "model_config" then stripModelConfig rest
      else (k, v) :: stripModelConfig rest

/-- Field check: the key is present and its value is a string
(pydantic `str` field). -/
def isStrField (v : Option JVal) : Bool :=
  match v with
  | some (JVal.str _) => true
  | _ => false

/-- Field check: the key is present and its value is a boolean
(pydantic `bool` field). -/
def isBoolField (v : Option JVal) : Bool :=
  match v with
  | some (JVal.bool _) => true
  | _ => false

/-- Item check: the value is a string. -/
def isStrItem (v : JVal) : Bool :=
  match v with
  | JVal.str _ => true
  | _ => false

/-- Item check: an object with the two given required string fields
(`QuestionBlank`, `QuestionChoice`, `TermMeaningPair` of quizzify.py). -/
def isPairObj (f1 f2 : String) (v : JVal) : Bool :=
  match v with
  | JVal.obj o => isStrField (dictGet f1 o) && isStrField (dictGet f2 o)
  | _ => false

/-- Field check: the key is present and its value is a list all of whose
items satisfy `p` (pydantic `List[...]` field). -/
def isListField (p : JVal → Bool) (v : Option JVal) : Bool :=
  match v with
  | some (JVal.arr xs) => xs.all p
  | _ => false

/-- Structural content of `schema(**result)` succeeding, per schema class
declared in quizzify.py (all fields required, extra keys ignored). -/
def validateSchema : QuestionSchema → Response → Bool
  | QuestionSchema.fillInTheBlank, r =>
      isStrField (dictGet "question" r) &&
      isListField (isPairObj "key" "value") (dictGet "blanks" r) &&
      isListField isStrItem (dictGet "word_bank" r) &&
      isStrField (dictGet "explanation" r)
  | QuestionSchema.openEnded, r =>
      isStrField (dictGet "question" r) &&
      isStrField (dictGet "answer" r) &&
      isListField isStrItem (dictGet "feedback" r)
  | QuestionSchema.trueFalse, r =>
      isStrField (dictGet "question" r) &&
      isBoolField (dictGet "answer" r) &&
      isStrField (dictGet "explanation" r)
  | QuestionSchema.multipleChoice, r =>
      isStrField (dictGet "question" r) &&
      isListField (isPairObj "key" "value") (dictGet "choices" r) &&
      isStrField (dictGet "answer" r) &&
      isStrField (dictGet "explanation" r)
  | QuestionSchema.relateConcepts, r =>
      isStrField (dictGet "question" r) &&
      isListField (isPairObj "term" "meaning") (dictGet "pairs" r) &&
      isListField (isPairObj "term" "meaning") (dictGet "answer" r) &&
      isStrField (dictGet "explanation" r)
  | QuestionSchema.mathExercises, r =>
      isStrField (dictGet "question" r) &&
      isStrField (dictGet "solution" r) &&
      isStrField (dictGet "correct_answer" r) &&
      isStrField (dictGet "explanation" r)

/-- `QuizBuilder.validate_question` (quizzify.py lines 106-114): re-resolves
the schema from `self.question_type` and tries `schema(**result)`; any
exception inside the `try` (including an unsupported type) yields `False`. -/
def validateQuestion (questionType : String) (r : Response) : Bool :=
  match schemaMapping questionType with
  | none => false
  | some s => validateSchema s r

/-- Python list slice `lst[:n]` for an `int` bound `n` (line 153 returns
`generated_questions[:num_questions]`): a nonnegative bound keeps the first
`n` items, a negative bound drops `-n` items from the end. -/
def pySliceTo {α : Type} (l : List α) (n : Int) : List α :=
  if 0 ≤ n then l.take n.toNat else l.take ((l.length : Int) + n).toNat

/-- The `while` loop of `create_questions` (quizzify.py lines 128-145),
with the remaining attempt budget `max_attempts - attempts` as structural
fuel. `inv` is the number of `chain.invoke` calls made so far (equal to the
Python `attempts` counter at the start of each iteration, since `attempts`
is incremented exactly once per completed iteration). An `env` exception
during an attempt propagates (the loop body has no handler); the returned
counter then still records that the raising call was made. A response that
arrives is stripped of `model_config` (lines 133-134), validated
(line 136), and appended exactly when validation succeeds (line 137). -/
def genLoop (questionType : String) (env : Nat → Except String Response) (num : Int) :
    Nat → List Response → Nat → Except String (List Response) × Nat
  | 0, gen, inv => (Except.ok gen, inv)
  | fuel + 1, gen, inv =>
    if (gen.length : Int) < num then
      match env inv with
      | Except.error e => (Except.error e, inv + 1)
      | Except.ok r =>
        if validateQuestion questionType (stripModelConfig r) then
          genLoop questionType env num fuel (gen ++ [stripModelConfig r]) (inv + 1)
        else
          genLoop questionType env num fuel gen (inv + 1)
    else (Except.ok gen, inv)

/-- The value `create_questions` returns normally: either the error dict
`{"message": "error", "data": ...}` of line 120 or the question list of
line 153. -/
inductive CQResult where
  | errorDict (message data : String)
  | questions (qs : List Response)

/-- One run of `create_questions`: its outcome (`Except.error` = an
exception propagated out of the call) plus counters for the external side
effects: vectorstore builds, `chain.invoke` calls, `delete_collection`
calls. -/
structure CQRun where
  result : Except String CQResult
  builds : Nat
  invokes : Nat
  deletes : Nat

/-- `QuizBuilder.create_questions` (quizzify.py lines 116-153).
Control flow in source order: the `num_questions > 10` guard returns the
error dict before `compile` runs (so before the vectorstore is built and
before any model call); `compile` builds the vectorstore (fresh builder:
`self.runner is None`); the generation loop runs with
`max_attempts = num_questions * 5`; on normal loop exit
`self.vectorstore.delete_collection()` runs once and the accumulated list
is returned sliced to `[:num_questions]`; an exception raised during an
attempt propagates past the delete (there is no `try`/`finally`). -/
def createQuestions (questionType : String) (env : Nat → Except String Response)
    (numQuestions : Int) : CQRun :=
  if numQuestions > 10 then
    { result := Except.ok (CQResult.errorDict "error" "Number of questions cannot exceed 10"),
      builds := 0, invokes := 0, deletes := 0 }
  else
    match genLoop questionType env numQuestions (numQuestions * 5).toNat [] 0 with
    | (Except.error e, inv) =>
        { result := Except.error e, builds := 1, invokes := inv, deletes := 0 }
    | (Except.ok gen, inv) =>
        { result := Except.ok (CQResult.questions (pySliceTo gen numQuestions)),
          builds := 1, invokes := inv, deletes := 1 }

/-! ### Concrete model behaviours used in counterexamples and witnesses -/

/-- A parsed dict that fails validation against every schema (it lacks the
required `question` field). -/
def invalidResp : Response := [("bogus", JVal.str "x")]

/-- A model that always returns a parseable but validation-failing object. -/
def envAlwaysInvalid : Nat → Except String Response := fun _ => Except.ok invalidResp

/-- The multiple-choice example object from the schema docstring in
quizzify.py, valid for `MultipleChoiceQuestion`. -/
def validMCQ : Response :=
  [("question", JVal.str "What is the capital of France?"),
   ("choices", JVal.arr
      [JVal.obj [("key", JVal.str "A"), ("value", JVal.str "Berlin")],
       JVal.obj [("key", JVal.str "C"), ("value", JVal.str "Paris")]]),
   ("answer", JVal.str "C"),
   ("explanation", JVal.str "Paris is the capital of France.")]

/-- A model that always returns the valid multiple-choice object. -/
def envValidMCQ : Nat → Except String Response := fun _ => Except.ok validMCQ

/-- A `QuestionBlank` object with the two required string fields. -/
def blankJ (k v : String) : JVal := JVal.obj [("key", JVal.str k), ("value", JVal.str v)]

/-- A fill-in-the-blank object with exactly five blanks, valid for
`FillInTheBlankQuestion`. -/
def validFIB : Response :=
  [("question", JVal.str "The {0} of France is {1}, known for {2} {3} {4}."),
   ("blanks", JVal.arr [blankJ "0" "capital", blankJ "1" "Paris", blankJ "2" "art",
                        blankJ "3" "culinary", blankJ "4" "delights"]),
   ("word_bank", JVal.arr [JVal.str "delights", JVal.str "art", JVal.str "Paris",
                           JVal.str "culinary", JVal.str "capital"]),
   ("explanation", JVal.str "Paris is the capital of France.")]

/-- A model whose first four responses parse but fail validation and whose
fifth is the valid fill-in-the-blank object. -/
def envRetryValid : Nat → Except String Response :=
  fun i => if i < 4 then Except.ok invalidResp else Except.ok validFIB

/-- A model whose first four responses are malformed JSON — the chain's
JSON output parsing step raises `OutputParserException` on them — and whose
fifth is the valid fill-in-the-blank object. -/
def envMalformedJson : Nat → Except String Response :=
  fun i => if i < 4 then Except.error "Invalid json output" else Except.ok validFIB

/-- A model whose every call raises. -/
def envModelRaises : Nat → Except String Response := fun _ => Except.error "model call failed"

/-! ### Helper lemmas about the generation loop -/

/-- The loop makes at most `fuel` further `chain.invoke` calls. -/
theorem genLoop_invokes_le (questionType : String) (env : Nat → Except String Response)
    (num : Int) :
    ∀ fuel gen inv, (genLoop questionType env num fuel gen inv).2 ≤ inv + fuel := by
  intro fuel
  induction fuel with
  | zero => intro gen inv; simp [genLoop]
  | succ k ih =>
    intro gen inv
    simp only [genLoop]
    split
    · split
      · dsimp only; omega
      · rename_i r heq
        split
        · refine le_trans (ih (gen ++ [stripModelConfig r]) (inv + 1)) ?_
          omega
        · refine le_trans (ih gen (inv + 1)) ?_
          omega
    · dsimp only; omega

/-- With a model that never raises and never produces a validating
response, the loop consumes its whole budget and collects nothing. -/
theorem genLoop_all_invalid (questionType : String) (env : Nat → Except String Response)
    (num : Int) (hnum : 0 < num)
    (hinv : ∀ i, ∃ r, env i = Except.ok r ∧
      validateQuestion questionType (stripModelConfig r) = false) :
    ∀ fuel inv, genLoop questionType env num fuel [] inv = (Except.ok [], inv + fuel) := by
  intro fuel
  induction fuel with
  | zero => intro inv; simp [genLoop]
  | succ k ih =>
    intro inv
    obtain ⟨r, hr, hv⟩ := hinv inv
    simp only [genLoop, List.length_nil, Nat.cast_zero]
    rw [if_pos hnum, hr]
    simp only [hv, Bool.false_eq_true, if_false]
    rw [ih (inv + 1)]
    congr 1
    omega

/-- Every entry of a list the loop returns normally passed validation,
provided the entries it started from did. -/
theorem genLoop_mem_valid (questionType : String) (env : Nat → Except String Response)
    (num : Int) :
    ∀ fuel gen inv gs inv2,
      genLoop questionType env num fuel gen inv = (Except.ok gs, inv2) →
      (∀ r ∈ gen, validateQuestion questionType r = true) →
      ∀ r ∈ gs, validateQuestion questionType r = true := by
  intro fuel
  induction fuel with
  | zero =>
    intro gen inv gs inv2 h hgen
    simp only [genLoop, Prod.mk.injEq, Except.ok.injEq] at h
    exact h.1 ▸ hgen
  | succ k ih =>
    intro gen inv gs inv2 h hgen
    simp only [genLoop] at h
    split at h
    · split at h
      · simp at h
      · rename_i r heq
        split at h
        · rename_i hv
          refine ih _ _ _ _ h ?_
          intro x hx
          rcases List.mem_append.1 hx with hx | hx
          · exact hgen x hx
          · simp at hx
            exact hx ▸ hv
        · exact ih _ _ _ _ h hgen
    · simp only [Prod.mk.injEq, Except.ok.injEq] at h
      exact h.1 ▸ hgen

/-- With a model that never raises, the loop never raises. -/
theorem genLoop_ok_of_env_ok (questionType : String) (env : Nat → Except String Response)
    (num : Int) (hok : ∀ i, ∃ r, env i = Except.ok r) :
    ∀ fuel gen inv, ∃ gs inv2,
      genLoop questionType env num fuel gen inv = (Except.ok gs, inv2) := by
  intro fuel
  induction fuel with
  | zero => intro gen inv; exact ⟨gen, inv, by simp [genLoop]⟩
  | succ k ih =>
    intro gen inv
    by_cases hc : (gen.length : Int) < num
    · obtain ⟨r, hr⟩ := hok inv
      by_cases hv : validateQuestion questionType (stripModelConfig r) = true
      · obtain ⟨gs, inv2, hg⟩ := ih (gen ++ [stripModelConfig r]) (inv + 1)
        refine ⟨gs, inv2, ?_⟩
        simp only [genLoop]
        rw [if_pos hc, hr]
        simp only [hv, if_true]
        exact hg
      · obtain ⟨gs, inv2, hg⟩ := ih gen (inv + 1)
        refine ⟨gs, inv2, ?_⟩
        simp only [genLoop]
        rw [if_pos hc, hr]
        simp only [Bool.not_eq_true] at hv
        simp only [hv, Bool.false_eq_true, if_false]
        exact hg
    · exact ⟨gen, inv, by simp only [genLoop]; rw [if_neg hc]⟩

/-- Slicing the empty list yields the empty list. -/
theorem pySliceTo_nil {α : Type} (n : Int) : pySliceTo ([] : List α) n = [] := by
  unfold pySliceTo
  split <;> simp

/-- A slice is a subset of the sliced list. -/
theorem pySliceTo_subset {α : Type} (l : List α) (n : Int) : pySliceTo l n ⊆ l := by
  unfold pySliceTo
  split <;> exact List.take_subset _ _

/-- For a nonnegative bound the slice has at most `n.toNat` entries. -/
theorem pySliceTo_length_le {α : Type} (l : List α) (n : Int) (h : 0 ≤ n) :
    (pySliceTo l n).length ≤ n.toNat := by
  unfold pySliceTo
  rw [if_pos h]
  simp [List.length_take]

/-! ### Claim theorems -/

/-- Claim C1, counterexample: when the vectorstore build succeeds but the
first generation attempt raises, `create_questions` propagates the
exception and `delete_collection` is never invoked — the built index
survives the call, refuting release-on-every-exit-path. -/
theorem createQuestions_raise_skips_delete_cex :
    (createQuestions "multiple_choice" envModelRaises 1).builds = 1 ∧
    (createQuestions "multiple_choice" envModelRaises 1).result
      = Except.error "model call failed" ∧
    (createQuestions "multiple_choice" envModelRaises 1).deletes = 0 :=
  ⟨rfl, rfl, rfl⟩

/-- Claim C1, amended: for every call that reaches the generation loop
(`num_questions ≤ 10`), the vectorstore is built exactly once, and
`delete_collection` is invoked exactly once iff the call returns normally;
when a generation attempt raises, the exception propagates and no release
happens. -/
theorem createQuestions_delete_iff_normal_return (questionType : String)
    (env : Nat → Except String Response) (n : Int) (hn : n ≤ 10) :
    (createQuestions questionType env n).builds = 1 ∧
    ((createQuestions questionType env n).deletes = 1 ↔
      ∃ qs, (createQuestions questionType env n).result
        = Except.ok (CQResult.questions qs)) := by
  unfold createQuestions
  rw [if_neg (by omega)]
  rcases h : genLoop questionType env n (n * 5).toNat [] 0 with ⟨res, inv⟩
  cases res with
  | error e => simp
  | ok gen => simp

/-- Claim C1, witness for the amended theorem at a concrete succeeding
run. -/
theorem createQuestions_delete_iff_normal_return_witness :
    (createQuestions "multiple_choice" envValidMCQ 1).builds = 1 ∧
    ((createQuestions "multiple_choice" envValidMCQ 1).deletes = 1 ↔
      ∃ qs, (createQuestions "multiple_choice" envValidMCQ 1).result
        = Except.ok (CQResult.questions qs)) :=
  createQuestions_delete_iff_normal_return "multiple_choice" envValidMCQ 1 (by decide)

/-- Claim C2, counterexample: with a model returning malformed JSON on the
first four attempts and a valid fill-in-the-blank object on the fifth,
`create_questions` raises on the very first attempt (the chain's JSON
parsing exception propagates — there is no handler in the loop), instead
of continuing and returning one result after five attempts. -/
theorem createQuestions_parse_error_after_one_attempt_cex :
    (createQuestions "fill_in_the_blank" envMalformedJson 1).result
      = Except.error "Invalid json output" ∧
    (createQuestions "fill_in_the_blank" envMalformedJson 1).invokes = 1 :=
  ⟨rfl, rfl⟩

/-- Claim C2, amended: a parsing failure of the raw model response raises
out of `create_questions` after that single attempt, aborting the loop
without releasing the vectorstore; only schema-validation failures of
successfully parsed responses are treated as failed attempts, and for
those the loop does continue: parseable-but-invalid output on the first
four attempts followed by a valid fill-in-the-blank object on the fifth
yields one result after exactly five attempts. -/
theorem createQuestions_parse_abort_validation_retry (questionType : String)
    (env : Nat → Except String Response) (n : Int) (e : String)
    (h1 : 0 < n) (h2 : n ≤ 10) (h3 : env 0 = Except.error e) :
    ((createQuestions questionType env n).result = Except.error e ∧
      (createQuestions questionType env n).invokes = 1 ∧
      (createQuestions questionType env n).deletes = 0) ∧
    ((createQuestions "fill_in_the_blank" envRetryValid 1).result
        = Except.ok (CQResult.questions [validFIB]) ∧
      (createQuestions "fill_in_the_blank" envRetryValid 1).invokes = 5) := by
  refine ⟨?_, rfl, rfl⟩
  unfold createQuestions
  rw [if_neg (by omega)]
  have hf : (n * 5).toNat ≠ 0 := by omega
  obtain ⟨k, hk⟩ := Nat.exists_eq_succ_of_ne_zero hf
  rw [hk]
  simp only [genLoop, List.length_nil, Nat.cast_zero]
  rw [if_pos h1, h3]
  exact ⟨rfl, rfl, rfl⟩

/-- Claim C2, witness for the amended theorem: a model raising on its
first call. -/
theorem createQuestions_parse_abort_validation_retry_witness :
    ((createQuestions "multiple_choice" envModelRaises 2).result
        = Except.error "model call failed" ∧
      (createQuestions "multiple_choice" envModelRaises 2).invokes = 1 ∧
      (createQuestions "multiple_choice" envModelRaises 2).deletes = 0) ∧
    ((createQuestions "fill_in_the_blank" envRetryValid 1).result
        = Except.ok (CQResult.questions [validFIB]) ∧
      (createQuestions "fill_in_the_blank" envRetryValid 1).invokes = 5) :=
  createQuestions_parse_abort_validation_retry "multiple_choice" envModelRaises 2
    "model call failed" (by decide) (by decide) rfl

/-- Claim C3, counterexample: the identifier `"default"` is not in the
fixed supported set, yet `get_parser_for_question_type` silently resolves
it to the multiple-choice schema instead of failing. -/
theorem getParser_default_fallback_cex :
    "default" ∉ supportedQuestionTypes ∧
    getParserForQuestionType "default" = Except.ok QuestionSchema.multipleChoice :=
  ⟨by decide, rfl⟩

/-- Claim C3, amended: for every identifier outside the fixed set *and*
distinct from the literal `"default"`, resolution fails with the
unsupported-question-type error; `"default"` is the single identifier
outside the fixed set that is silently coerced to the multiple-choice
schema. -/
theorem getParser_unsupported_error (questionType : String)
    (h1 : questionType ∉ supportedQuestionTypes) (h2 : questionType ≠ "default") :
    getParserForQuestionType questionType
      = Except.error ("Unsupported question type: " ++ questionType) := by
  simp only [supportedQuestionTypes, List.mem_cons, List.not_mem_nil, or_false,
    not_or] at h1
  obtain ⟨n1, n2, n3, n4, n5, n6⟩ := h1
  simp [getParserForQuestionType, schemaMapping, n1, n2, n3, n4, n5, n6, h2]

/-- Claim C3, witness for the amended theorem at the identifier
`"essay"`. -/
theorem getParser_unsupported_error_witness :
    getParserForQuestionType "essay"
      = Except.error ("Unsupported question type: " ++ "essay") :=
  getParser_unsupported_error "essay" (by decide) (by decide)

/-- Claim C4: a request for more than 10 questions is answered with the
descriptive error value before the vectorstore is built and before any
model call — zero builds, zero invocations, zero deletes, and no
question list (so no truncation-after-generation either). -/
theorem createQuestions_rejects_over_ten (questionType : String)
    (env : Nat → Except String Response) (n : Int) (h : n > 10) :
    createQuestions questionType env n =
      { result := Except.ok (CQResult.errorDict "error"
          "Number of questions cannot exceed 10"),
        builds := 0, invokes := 0, deletes := 0 } := by
  unfold createQuestions
  rw [if_pos h]

/-- Claim C4, witness at `num_questions = 11`. -/
theorem createQuestions_rejects_over_ten_witness :
    createQuestions "multiple_choice" envValidMCQ 11 =
      { result := Except.ok (CQResult.errorDict "error"
          "Number of questions cannot exceed 10"),
        builds := 0, invokes := 0, deletes := 0 } :=
  createQuestions_rejects_over_ten "multiple_choice" envValidMCQ 11 (by decide)

/-- Claim C5, counterexample: `num_questions` is a plain Python `int`; at
the requested count `-1` the loop performs `0` attempts, and `0` is not at
most `5 × (-1)`, so the stated bound fails for negative counts (and with
an always-invalid model the attempts do not stop at the cap `-5`). -/
theorem createQuestions_attempt_cap_negative_cex :
    (createQuestions "multiple_choice" envAlwaysInvalid (-1)).invokes = 0 ∧
    ¬ (((createQuestions "multiple_choice" envAlwaysInvalid (-1)).invokes : Int)
        ≤ (-1) * 5) := by
  decide

/-- Claim C5, amended: for every requested count the loop terminates after
at most `max 0 (num_questions * 5)` generation attempts, and with a model
that always returns parseable but invalid output, every call that reaches
the loop (`num_questions ≤ 10`) stops after exactly
`max 0 (num_questions * 5)` attempts. -/
theorem createQuestions_attempt_cap (questionType : String)
    (env : Nat → Except String Response) (n : Int) :
    (createQuestions questionType env n).invokes ≤ (n * 5).toNat ∧
    ((∀ i, ∃ r, env i = Except.ok r ∧
        validateQuestion questionType (stripModelConfig r) = false) →
      n ≤ 10 → (createQuestions questionType env n).invokes = (n * 5).toNat) := by
  constructor
  · unfold createQuestions
    split
    · simp
    · rcases h : genLoop questionType env n (n * 5).toNat [] 0 with ⟨res, inv⟩
      have hb := genLoop_invokes_le questionType env n ((n * 5).toNat) [] 0
      rw [h] at hb
      cases res <;> simpa using hb
  · intro hinv hn
    unfold createQuestions
    rw [if_neg (by omega)]
    by_cases hn0 : 0 < n
    · rw [genLoop_all_invalid questionType env n hn0 hinv ((n * 5).toNat) 0]
      simp
    · have h5 : (n * 5).toNat = 0 := by omega
      rw [h5]
      simp [genLoop]

/-- Claim C5, witness for the amended theorem: requested count 2, exactly
10 attempts. -/
theorem createQuestions_attempt_cap_witness :
    (createQuestions "multiple_choice" envAlwaysInvalid 2).invokes
      = ((2 : Int) * 5).toNat :=
  (createQuestions_attempt_cap "multiple_choice" envAlwaysInvalid 2).2
    (fun _ => ⟨invalidResp, rfl, rfl⟩) (by decide)

/-- Claim C6, counterexample: at the requested count `-2` the call
succeeds and returns the empty list, whose length `0` is not at most
`-2` — the bound "at most requested_count" fails for negative counts. -/
theorem createQuestions_negative_count_length_cex :
    (createQuestions "multiple_choice" envAlwaysInvalid (-2)).result
      = Except.ok (CQResult.questions []) ∧
    ¬ ((([] : List Response).length : Int) ≤ -2) :=
  ⟨rfl, by decide⟩

/-- Claim C6, amended: every normally returned question list has at most
`max num_questions 0` entries (the accumulated results are sliced to the
target), and every returned item validates against the schema resolved
from the request's question type. -/
theorem createQuestions_result_bounded_and_valid (questionType : String)
    (env : Nat → Except String Response) (n : Int) (qs : List Response)
    (h : (createQuestions questionType env n).result
      = Except.ok (CQResult.questions qs)) :
    qs.length ≤ n.toNat ∧ ∀ r ∈ qs, validateQuestion questionType r = true := by
  unfold createQuestions at h
  by_cases h10 : n > 10
  · rw [if_pos h10] at h
    simp at h
  · rw [if_neg h10] at h
    rcases hg : genLoop questionType env n (n * 5).toNat [] 0 with ⟨res, inv⟩
    rw [hg] at h
    cases res with
    | error e => simp at h
    | ok gen =>
      simp only [Except.ok.injEq] at h
      injection h with h2
      subst h2
      constructor
      · by_cases hn : 0 ≤ n
        · exact pySliceTo_length_le gen n hn
        · have h5 : (n * 5).toNat = 0 := by omega
          rw [h5] at hg
          simp only [genLoop, Prod.mk.injEq, Except.ok.injEq] at hg
          obtain ⟨rfl, rfl⟩ := hg
          simp [pySliceTo_nil]
      · intro r hr
        exact genLoop_mem_valid questionType env n ((n * 5).toNat) [] 0 gen inv hg
          (by simp) r (pySliceTo_subset gen n hr)

/-- Claim C6, witness for the amended theorem at a concrete succeeding
run. -/
theorem createQuestions_result_bounded_and_valid_witness :
    [validMCQ].length ≤ (1 : Int).toNat ∧
    ∀ r ∈ [validMCQ], validateQuestion "multiple_choice" r = true :=
  createQuestions_result_bounded_and_valid "multiple_choice" envValidMCQ 1 [validMCQ] rfl

/-- Claim C7: with a model that never raises, every call reaching the loop
returns a normal (possibly empty) question list, not an error; and when
additionally every response fails validation, requested count 3 returns
the empty list after exactly 15 attempts with no exception. -/
theorem createQuestions_partial_success (questionType : String)
    (env : Nat → Except String Response)
    (hok : ∀ i, ∃ r, env i = Except.ok r) :
    (∀ n : Int, n ≤ 10 → ∃ qs,
      (createQuestions questionType env n).result
        = Except.ok (CQResult.questions qs)) ∧
    ((∀ i r, env i = Except.ok r →
        validateQuestion questionType (stripModelConfig r) = false) →
      (createQuestions questionType env 3).result
        = Except.ok (CQResult.questions []) ∧
      (createQuestions questionType env 3).invokes = 15) := by
  constructor
  · intro n hn
    unfold createQuestions
    rw [if_neg (by omega)]
    obtain ⟨gs, inv2, hg⟩ :=
      genLoop_ok_of_env_ok questionType env n hok ((n * 5).toNat) [] 0
    rw [hg]
    exact ⟨pySliceTo gs n, rfl⟩
  · intro hinv
    have hinv2 : ∀ i, ∃ r, env i = Except.ok r ∧
        validateQuestion questionType (stripModelConfig r) = false := by
      intro i
      obtain ⟨r, hr⟩ := hok i
      exact ⟨r, hr, hinv i r hr⟩
    have hloop := genLoop_all_invalid questionType env 3 (by norm_num) hinv2
      (((3 : Int) * 5).toNat) 0
    unfold createQuestions
    rw [if_neg (by norm_num)]
    rw [hloop]
    exact ⟨rfl, by decide⟩

/-- Claim C7, witness: the always-invalid model. -/
theorem createQuestions_partial_success_witness :
    (createQuestions "multiple_choice" envAlwaysInvalid 3).result
      = Except.ok (CQResult.questions []) ∧
    (createQuestions "multiple_choice" envAlwaysInvalid 3).invokes = 15 :=
  (createQuestions_partial_success "multiple_choice" envAlwaysInvalid
      (fun _ => ⟨invalidResp, rfl⟩)).2
    (fun _ r hr => by injection hr with h; subst h; rfl)

/-- Claim C8: the normalization step removes the `model_config` key from a
parsed candidate (whether or not it is present) and leaves the value of
every other key unchanged. -/
theorem stripModelConfig_removes_only_model_config (r : Response) (k : String)
    (h : k ≠ "model_config") :
    dictGet "model_config" (stripModelConfig r) = none ∧
    dictGet k (stripModelConfig r) = dictGet k r := by
  induction r with
  | nil => simp [stripModelConfig, dictGet]
  | cons kv rest ih =>
    obtain ⟨k2, v⟩ := kv
    by_cases hk : k2 = "model_config"
    · subst hk
      have hstep : stripModelConfig (("model_config", v) :: rest)
          = stripModelConfig rest := by
        simp [stripModelConfig]
      rw [hstep]
      have hne : ¬ ("model_config" = k) := fun hh => h hh.symm
      refine ⟨ih.1, ?_⟩
      rw [ih.2]
      simp [dictGet, hne]
    · simp only [stripModelConfig, if_neg hk]
      constructor
      · simp only [dictGet, if_neg hk]
        exact ih.1
      · by_cases hk2 : k2 = k
        · subst hk2
          simp [dictGet]
        · simp only [dictGet, if_neg hk2]
          exact ih.2

/-- Claim C8, witness on a candidate that contains `model_config` plus one
ordinary field. -/
theorem stripModelConfig_removes_only_model_config_witness :
    dictGet "model_config" (stripModelConfig
      [("model_config", JVal.str "meta"), ("question", JVal.str "Q")]) = none ∧
    dictGet "question" (stripModelConfig
      [("model_config", JVal.str "meta"), ("question", JVal.str "Q")])
      = dictGet "question"
          [("model_config", JVal.str "meta"), ("question", JVal.str "Q")] :=
  stripModelConfig_removes_only_model_config
    [("model_config", JVal.str "meta"), ("question", JVal.str "Q")] "question"
    (by decide)

/-- Claim C9: constructing a `QuizBuilder` with a question type outside
the schema mapping fails with the unsupported-question-type error for
every combination of constructor overrides, including an explicit parser
override, because `default_config` (and thus
`get_parser_for_question_type`) is evaluated eagerly before the overrides
are applied. -/
theorem quizBuilderInit_unsupported_type_fails (topic : Option String)
    (questionType lang : String) (vectorstoreProvided : Bool)
    (promptOverride : Option String) (parserOverride : Option QuestionSchema)
    (verbose : Bool) (h : schemaMapping questionType = none) :
    quizBuilderInit topic questionType lang vectorstoreProvided promptOverride
        parserOverride verbose
      = Except.error ("Unsupported question type: " ++ questionType) := by
  unfold quizBuilderInit getParserForQuestionType
  rw [h]

/-- Claim C9, witness: unsupported type `"essay"` with an explicit parser
override still fails at construction. -/
theorem quizBuilderInit_unsupported_type_fails_witness :
    quizBuilderInit (some "Paris") "essay" "en" true (some "custom prompt")
        (some QuestionSchema.multipleChoice) false
      = Except.error ("Unsupported question type: " ++ "essay") :=
  quizBuilderInit_unsupported_type_fails (some "Paris") "essay" "en" true
    (some "custom prompt") (some QuestionSchema.multipleChoice) false (by decide)

/-- Claim C10: for every requested count at most 0, `create_questions`
performs zero generation attempts and returns the empty list, and the
vectorstore is still built once and released exactly once before
returning. -/
theorem createQuestions_nonpositive_count (questionType : String)
    (env : Nat → Except String Response) (n : Int) (h : n ≤ 0) :
    createQuestions questionType env n =
      { result := Except.ok (CQResult.questions []),
        builds := 1, invokes := 0, deletes := 1 } := by
  unfold createQuestions
  rw [if_neg (by omega)]
  have h5 : (n * 5).toNat = 0 := by omega
  rw [h5]
  simp [genLoop, pySliceTo_nil]

/-- Claim C10, witness at requested count 0. -/
theorem createQuestions_nonpositive_count_witness :
    createQuestions "multiple_choice" envValidMCQ 0 =
      { result := Except.ok (CQResult.questions []),
        builds := 1, invokes := 0, deletes := 1 } :=
  createQuestions_nonpositive_count "multiple_choice" envValidMCQ 0 (by decide)

end Quizzify
